import Mathlib

/-!
Shallow embedding of the exit-interview analysis pipeline
(`pre_analyze.py`, the batch Analyzer) and the dashboard / chat layer
(`app.py`, the Insights Service), together with theorems settling the
specification claims about them.

External collaborators (the OpenAI completion service, `json.loads` of its
response text, file I/O) are modelled as oracle parameters: a call that can
raise inside the source's `try`/`except` block is an `Option`-valued oracle,
with `none` standing for the raised exception.  All local orchestration logic
(truthiness gates, list building, counting, grouping, sorting, prompt
assembly, chat-history bookkeeping) is embedded from the source.
-/

/-- A parsed JSON value, the result type of Python's `json.loads`.
Numbers are modelled as integers (no claim depends on float values). -/
inductive Json where
  | null
  | bool (b : Bool)
  | num (n : Int)
  | str (s : String)
  | arr (xs : List Json)
  | obj (fields : List (String × Json))
deriving Repr

/-- Python truthiness (`bool(x)`) of a value produced by `json.loads`:
`None`, `False`, `0`, `""`, `[]` and `{}` are falsy, everything else truthy. -/
def truthy : Json → Bool
  | .null => false
  | .bool b => b
  | .num n => n != 0
  | .str s => s != ""
  | .arr xs => !xs.isEmpty
  | .obj fs => !fs.isEmpty

/-- Python truthiness of the `analysis_result` variable in `main`'s loop,
which is either `None` (modelled `none`) or a `json.loads` result. -/
def truthyOpt : Option Json → Bool
  | none => false
  | some j => truthy j

/-- One raw exit-interview record, as read from `data.json`
(field names follow the source). -/
structure RawInterview where
  employeeID : String
  employeeName : String
  designation : String
  department : String
  exitReason : String
  interviewTranscript : String
deriving Repr, DecidableEq

/-- The fixed extraction-prompt template of `analyze_interview`
(`pre_analyze.py` lines 22-45), embedding the transcript verbatim.
JSON braces of the schema example are written with `\x7b`/`\x7d` escapes. -/
def analysis_prompt (transcript_text : String) : String :=
  "\n    You are an expert HR analyst AI. Your task is to analyze an exit interview transcript and extract key insights.\n    Analyze the following interview transcript and provide your output in a structured JSON format.\n\n    Interview Transcript:\n    ```\n    "
    ++ transcript_text ++
    "\n    ```\n\n    Instructions:\n    Based on the transcript, generate a JSON object with the following exact schema:\n    ```json\n    \x7b\x7b\n      \"overallSentiment\": \"Positive | Negative | Neutral | Mixed\",\n      \"keyThemes\": [\"<list of 1-3 most prominent themes from topics like Management, Compensation, etc.>\"],\n      \"extractedEntities\": [\n        \x7b\x7b \"type\": \"Person\", \"name\": \"<e.g., Priya Sharma>\" \x7d\x7d,\n        \x7b\x7b \"type\": \"Project\", \"name\": \"<e.g., Navigator Platform>\" \x7d\x7d\n      ],\n      \"summary\": \"<A 2-3 bullet point summary as a single string with newlines.>\"\n    \x7d\x7d\n    ```\n    CRITICAL: Only output the final JSON object. Do not include any other text or explanations.\n    "

/-- `analyze_interview` (`pre_analyze.py` lines 18-55).  The `try` block —
the `openai.chat.completions.create` call followed by `json.loads` on the
response text — is the oracle `complete`, mapping the prompt to the parsed
JSON of the service's reply; `none` models any exception raised in the block
(transport/service error or a JSON parse failure), which the `except` arm
turns into `None`.  Note the function applies NO schema validation to the
parsed value: whatever JSON the block yields is returned as-is. -/
def analyze_interview (complete : String → Option Json) (transcript_text : String) :
    Option Json :=
  complete (analysis_prompt transcript_text)

/-- The accumulation loop of `main` (`pre_analyze.py` lines 63-74):
for each interview, `transcript = interview.get("interviewTranscript", "")`;
`if transcript:` (Python truthiness of a string = non-empty) call
`analyze_interview`; `if analysis_result:` (Python truthiness: skips `None`
and any falsy JSON value such as `{}`) append the combined record. -/
def analyzed_interviews (complete : String → Option Json) :
    List RawInterview → List (RawInterview × Json)
  | [] => []
  | interview :: rest =>
    let transcript := interview.interviewTranscript
    let tail := analyzed_interviews complete rest
    if transcript != "" then
      match analyze_interview complete transcript with
      | some analysis_result =>
        if truthy analysis_result then (interview, analysis_result) :: tail else tail
      | none => tail
    else tail

/-- Number of input interviews skipped for having an empty transcript. -/
def count_empty_transcripts : List RawInterview → Nat
  | [] => 0
  | iv :: rest =>
    (if iv.interviewTranscript == "" then 1 else 0) + count_empty_transcripts rest

/-- Number of input interviews whose extraction call failed (the `try` block
raised, i.e. `analyze_interview` returned `None`), among those actually
analyzed (non-empty transcript). -/
def count_failures (complete : String → Option Json) :
    List RawInterview → Nat
  | [] => 0
  | iv :: rest =>
    (if iv.interviewTranscript != "" &&
        (analyze_interview complete iv.interviewTranscript).isNone
     then 1 else 0) + count_failures complete rest

/-- Number of input interviews whose extraction call succeeded but returned
a falsy JSON value (e.g. the empty object), which `main`'s
`if analysis_result:` gate silently drops. -/
def count_falsy_successes (complete : String → Option Json) :
    List RawInterview → Nat
  | [] => 0
  | iv :: rest =>
    (if iv.interviewTranscript != "" &&
        (match analyze_interview complete iv.interviewTranscript with
         | some j => !truthy j
         | none => false)
     then 1 else 0) + count_falsy_successes complete rest

/-- Field access `j["overallSentiment"]` on a parsed annotation object:
`none` when `j` is not an object or lacks the key. -/
def jsonField (key : String) : Json → Option Json
  | .obj fields => fields.lookup key
  | _ => none

/-- One enriched record as the Insights Service (`app.py`) consumes it after
`pd.json_normalize(data, sep="_")`: the RawInterview fields plus the nested
`analysis` object flattened into `analysis_*` columns.  Extracted entities
are (type, name) pairs. -/
structure EnrichedRecord where
  employeeID : String
  employeeName : String
  designation : String
  department : String
  exitReason : String
  interviewTranscript : String
  analysis_overallSentiment : String
  analysis_keyThemes : List String
  analysis_extractedEntities : List (String × String)
  analysis_summary : String
deriving Repr, DecidableEq

/-- `neg_sentiment_count` (`app.py` line 51):
`df[df["analysis_overallSentiment"] == "Negative"].shape[0]`. -/
def neg_sentiment_count (df : List EnrichedRecord) : Nat :=
  (df.filter (fun r => r.analysis_overallSentiment == "Negative")).length

/-- Exceptions the dashboard computations can raise. -/
inductive DashboardError where
  | zeroDivisionError
deriving Repr, DecidableEq

/-- Python's `/` on numbers: raises `ZeroDivisionError` when the divisor is
zero, otherwise exact (true) division, modelled over `ℚ`. -/
def pydiv (a b : ℚ) : Except DashboardError ℚ :=
  if b = 0 then .error .zeroDivisionError else .ok (a / b)

/-- `neg_sentiment_perc` (`app.py` line 52):
`(neg_sentiment_count / len(df)) * 100`.  The division is not guarded by any
`if`; on an empty dataframe Python's division raises, modelled by `pydiv`. -/
def neg_sentiment_perc (df : List EnrichedRecord) : Except DashboardError ℚ :=
  (pydiv (neg_sentiment_count df : ℚ) (df.length : ℚ)).map (fun q => q * 100)

/-- `df["analysis_keyThemes"].explode()` (`app.py` lines 55, 64): the
concatenation of all records' keyThemes lists, in record order. -/
def explode_keyThemes : List EnrichedRecord → List String
  | [] => []
  | r :: rest => r.analysis_keyThemes ++ explode_keyThemes rest

/-- Distinct values of a list in order of first occurrence (the index order
a pandas hash-based grouping produces), with `seen` accumulating the values
already emitted. -/
def firstOccsAux (seen : List String) : List String → List String
  | [] => []
  | x :: xs => if x ∈ seen then firstOccsAux seen xs else x :: firstOccsAux (x :: seen) xs

/-- Distinct values of a list in order of first occurrence. -/
def firstOccs (l : List String) : List String :=
  firstOccsAux [] l

/-- Stable insertion for a count-descending sort: `x` is placed before the
first element whose count does not exceed `x`'s, so among equal counts the
earlier-inserted (first-occurring) value stays first — the tie order pandas
`value_counts` exhibits. -/
def insertDesc (x : String × Nat) : List (String × Nat) → List (String × Nat)
  | [] => [x]
  | y :: ys => if x.2 < y.2 then y :: insertDesc x ys else x :: y :: ys

/-- Stable insertion sort by descending count. -/
def sortDesc : List (String × Nat) → List (String × Nat)
  | [] => []
  | x :: xs => insertDesc x (sortDesc xs)

/-- `Series.value_counts()`: each distinct value with its occurrence count,
sorted by count descending, ties in first-occurrence order. -/
def value_counts (l : List String) : List (String × Nat) :=
  sortDesc ((firstOccs l).map (fun v => (v, l.count v)))

/-- `top_theme` (`app.py` line 55):
`df["analysis_keyThemes"].explode().value_counts().idxmax()` — the index of
the first row attaining the maximal count, i.e. the head of the
count-descending `value_counts` table; `none` models the exception `idxmax`
raises on an empty series. -/
def top_theme (df : List EnrichedRecord) : Option String :=
  ((value_counts (explode_keyThemes df)).head?).map (fun p => p.1)

/-- `themes_df` (`app.py` lines 64-65): the `value_counts` table of the
exploded keyThemes as (Theme, Count) rows. -/
def themes_df (df : List EnrichedRecord) : List (String × Nat) :=
  value_counts (explode_keyThemes df)

/-- `sentiment_by_dept` (`app.py` line 72):
`df.groupby("department")["analysis_overallSentiment"].value_counts().unstack().fillna(0)`
— a row per department present in the corpus and a column per sentiment
label present anywhere in the corpus; `unstack().fillna(0)` makes a
department/sentiment pair with no records an explicit 0 cell.  (pandas sorts
the row and column keys; here they are kept in first-occurrence order, which
affects neither the key sets nor the counts.) -/
def sentiment_by_dept (df : List EnrichedRecord) :
    List (String × List (String × Nat)) :=
  (firstOccs (df.map (fun r => r.department))).map (fun d =>
    (d, (firstOccs (df.map (fun r => r.analysis_overallSentiment))).map (fun s =>
      (s, (df.filter (fun r =>
        r.department == d && r.analysis_overallSentiment == s)).length))))

/-- `display_name` (`app.py` line 103):
`df["employeeName"] + " (" + df["employeeID"] + ")"`. -/
def display_name (r : EnrichedRecord) : String :=
  r.employeeName ++ " (" ++ r.employeeID ++ ")"

/-- `selected_interview` (`app.py` line 109):
`df[df["display_name"] == selected_interview_display].iloc[0]` — the first
record whose display name equals the selector; `none` models the
`IndexError` that `iloc[0]` raises when no record matches. -/
def selected_interview (df : List EnrichedRecord) (sel : String) :
    Option EnrichedRecord :=
  (df.filter (fun r => display_name r == sel)).head?

/-- A simple JSON-style serialization of one enriched record, standing for
one element of `df.to_json(orient="records", indent=2)` (`app.py` line 152).
The exact pandas formatting (indentation, escaping) is immaterial to the
claims; what matters is that the text is computed from the record alone. -/
def record_json (r : EnrichedRecord) : String :=
  "\x7b\"employeeID\":\"" ++ r.employeeID ++
    "\",\"employeeName\":\"" ++ r.employeeName ++
    "\",\"designation\":\"" ++ r.designation ++
    "\",\"department\":\"" ++ r.department ++
    "\",\"exitReason\":\"" ++ r.exitReason ++
    "\",\"interviewTranscript\":\"" ++ r.interviewTranscript ++
    "\",\"analysis_overallSentiment\":\"" ++ r.analysis_overallSentiment ++
    "\",\"analysis_keyThemes\":[" ++ String.intercalate "," (r.analysis_keyThemes.map (fun t => "\"" ++ t ++ "\"")) ++
    "],\"analysis_summary\":\"" ++ r.analysis_summary ++ "\"\x7d"

/-- `data_as_json` (`app.py` line 152): the whole corpus serialized as a
JSON array of records. -/
def data_as_json (df : List EnrichedRecord) : String :=
  "[" ++ String.intercalate "," (df.map record_json) ++ "]"

/-- The instructional text of the system prompt that precedes the embedded
corpus (`app.py` lines 154-166). -/
def system_prompt_pre : String :=
  "\n    You are a quantitative HR Analyst AI assistant for an HR leader at Optum.\n    Your primary goal is to provide data-driven, statistical insights from the provided exit interview data.\n    You must answer questions based ONLY on the provided JSON data below. Do not make up information.\n\n    **RESPONSE GUIDELINES:**\n    1.  **Quantify First:** Always lead with statistics. Use counts, percentages, or fractions (e.g., \"The top reason is 'Career Growth', mentioned in 4 out of 8 Engineering departures (50%).\").\n    2.  **Synthesize, Don't Just List:** Do not list individual summaries one-by-one. Instead, synthesize trends and use individual cases as brief, supporting examples.\n    3.  **Structure Your Answers:** Provide a clear headline finding, followed by quantitative evidence, and then a brief qualitative example if relevant.\n    4.  **Be Direct and Actionable:** Frame your answers to help the HR leader make decisions.\n\n    Here is the exit interview data:\n```json\n    "

/-- The closing text of the system prompt after the embedded corpus
(`app.py` lines 168-169). -/
def system_prompt_post : String :=
  "\n    ```\n    "

/-- `SYSTEM_PROMPT` (`app.py` lines 154-169): the f-string interpolating
`data_as_json` into the fixed instructional template. -/
def SYSTEM_PROMPT (df : List EnrichedRecord) : String :=
  system_prompt_pre ++ data_as_json df ++ system_prompt_post

/-- A chat role, as the `"role"` field of a message dict. -/
inductive Role where
  | system
  | user
  | assistant
deriving Repr, DecidableEq

/-- One `{role, content}` message of `st.session_state.messages`. -/
structure Turn where
  role : Role
  content : String
deriving Repr, DecidableEq

/-- The assistant's canned greeting (`app.py` line 175). -/
def assistant_greeting : String :=
  "Hello! How can I help you analyze the exit interview data today?"

/-- The initial chat history (`app.py` lines 172-176): one system turn
carrying the system prompt built from the corpus, followed by the greeting
assistant turn. -/
def init_messages (df : List EnrichedRecord) : List Turn :=
  [⟨Role.system, SYSTEM_PROMPT df⟩, ⟨Role.assistant, assistant_greeting⟩]

/-- The chat-input handler (`app.py` lines 185-202) acting on the message
history: append the user turn, send the whole history to the completion
service (`chat_complete`, with `none` modelling a raised exception), and on
success append the assistant turn with the reply.  On failure the exception
propagates after the user turn was already appended, so the history keeps
exactly that one extra turn. -/
def handle_chat_input (chat_complete : List Turn → Option String)
    (messages : List Turn) (prompt : String) : List Turn :=
  let messages1 := messages ++ [⟨Role.user, prompt⟩]
  match chat_complete messages1 with
  | some response_content => messages1 ++ [⟨Role.assistant, response_content⟩]
  | none => messages1

/-- A whole session: fold `handle_chat_input` over a list of user inputs,
also counting how many calls succeeded and how many failed.  Returns
(final history, successful calls, failed calls). -/
def chat_run (chat_complete : List Turn → Option String)
    (messages : List Turn) : List String → List Turn × Nat × Nat
  | [] => (messages, 0, 0)
  | prompt :: rest =>
    let next := handle_chat_input chat_complete messages prompt
    let out := chat_run chat_complete next rest
    if (chat_complete (messages ++ [⟨Role.user, prompt⟩])).isSome
    then (out.1, out.2.1 + 1, out.2.2)
    else (out.1, out.2.1, out.2.2 + 1)

/-! ### Concrete fixtures used by witnesses and counterexamples -/

/-- A raw interview with a non-empty transcript. -/
def iv_nonempty : RawInterview :=
  ⟨"E1", "Alice", "Developer", "Engineering", "Career Growth", "I felt stuck in my role."⟩

/-- A completion-service oracle whose reply always parses to the empty JSON
object: a successful extraction (no exception, valid JSON) whose value is
falsy in Python. -/
def empty_obj_complete : String → Option Json := fun _ => some (Json.obj [])

/-- An annotation whose `overallSentiment` lies outside the closed
enumeration {Positive, Negative, Neutral, Mixed}. -/
def ecstatic_annotation : Json :=
  .obj [("overallSentiment", .str "Ecstatic"),
        ("keyThemes", .arr [.str "Compensation"]),
        ("extractedEntities", .arr []),
        ("summary", .str "- Loved everything.")]

/-- An oracle whose reply always parses to `ecstatic_annotation`. -/
def ecstatic_complete : String → Option Json := fun _ => some ecstatic_annotation

/-! ### Claim theorems about the Analyzer (`pre_analyze.py`) -/

/-- C1, counterexample: an interview with a non-empty transcript whose
extraction succeeds (no exception, parseable JSON) but yields the empty
object is dropped by `main`'s truthiness gate, so the output length is NOT
the input length minus the empty-transcript count minus the failure count
(0 ≠ 1 − 0 − 0). -/
theorem c1_falsy_success_breaks_length_formula :
    (analyzed_interviews empty_obj_complete [iv_nonempty]).length ≠
      [iv_nonempty].length - count_empty_transcripts [iv_nonempty] -
        count_failures empty_obj_complete [iv_nonempty] := by
  decide

/-- C1, amended: `run` completes (the embedded loop is a total function; the
only fallible call sits inside `try`/`except`), and its output length equals
the input length minus the count of empty-transcript interviews, minus the
count of extraction failures, minus the count of extractions that succeeded
but returned a falsy JSON value (which the `if analysis_result:` gate also
silently drops); stated additively to avoid truncated subtraction. -/
theorem c1_run_length_accounting :
    ∀ (complete : String → Option Json) (interviews : List RawInterview),
      (analyzed_interviews complete interviews).length +
        count_empty_transcripts interviews +
        count_failures complete interviews +
        count_falsy_successes complete interviews = interviews.length := by
  intro complete interviews
  induction interviews with
  | nil => rfl
  | cons iv rest ih =>
    simp only [analyzed_interviews, count_empty_transcripts, count_failures,
      count_falsy_successes, List.length_cons]
    cases he : (iv.interviewTranscript == "") with
    | true =>
      simp only [bne, he, Bool.not_true, Bool.false_and, if_false,
        Bool.false_eq_true, ite_true, if_true]
      omega
    | false =>
      cases hc : analyze_interview complete iv.interviewTranscript with
      | none =>
        simp [bne, he, hc]
        omega
      | some j =>
        cases ht : truthy j with
        | true => simp [bne, he, hc, ht]; omega
        | false => simp [bne, he, hc, ht]; omega

/-- C10: in `main`'s loop, an interview with a non-empty transcript whose
extraction call succeeds with parseable JSON is nevertheless excluded from
the output whenever the parsed annotation is falsy (e.g. the empty object),
because inclusion is gated on `if analysis_result:` (truthiness) rather than
an `is not None` check: the interview contributes nothing to the output. -/
theorem c10_falsy_annotation_excluded :
    ∀ (complete : String → Option Json) (pre post : List RawInterview)
      (iv : RawInterview) (j : Json),
      iv.interviewTranscript ≠ "" →
      analyze_interview complete iv.interviewTranscript = some j →
      truthy j = false →
      analyzed_interviews complete (pre ++ iv :: post) =
        analyzed_interviews complete pre ++ analyzed_interviews complete post := by
  intro complete pre post iv j h1 h2 h3
  induction pre with
  | nil =>
    simp only [List.nil_append, analyzed_interviews, h2, h3]
    simp [bne_iff_ne, h1]
  | cons p pre' ih =>
    simp only [List.cons_append, analyzed_interviews]
    cases htr : (p.interviewTranscript != "") with
    | false => simpa [htr] using ih
    | true =>
      cases hres : analyze_interview complete p.interviewTranscript with
      | none => simpa [htr, hres] using ih
      | some j' =>
        cases htj : truthy j' with
        | false => simp [htr, hres, htj, ih]
        | true => simp [htr, hres, htj, ih]

/-- C10, witness: a concrete non-empty-transcript interview whose extraction
returns the empty JSON object is dropped from the output. -/
theorem c10_falsy_annotation_excluded_witness :
    analyzed_interviews empty_obj_complete ([] ++ iv_nonempty :: []) =
      analyzed_interviews empty_obj_complete [] ++
        analyzed_interviews empty_obj_complete [] :=
  c10_falsy_annotation_excluded empty_obj_complete [] [] iv_nonempty
    (Json.obj []) (by decide) rfl rfl

/-- C3, evidence of the code bug: the completion service returns a JSON
object whose `overallSentiment` is "Ecstatic", outside the closed set
{Positive, Negative, Neutral, Mixed}.  `analyze_interview` applies no
validation — it returns the parsed object as a success — and `main` merges
it into the output corpus, contradicting the claim that such a response is
rejected as a Failure and never passed through. -/
theorem c3_out_of_set_sentiment_passthrough :
    analyze_interview ecstatic_complete iv_nonempty.interviewTranscript =
        some ecstatic_annotation ∧
      jsonField "overallSentiment" ecstatic_annotation =
        some (Json.str "Ecstatic") ∧
      "Ecstatic" ∉ (["Positive", "Negative", "Neutral", "Mixed"] : List String) ∧
      analyzed_interviews ecstatic_complete [iv_nonempty] =
        [(iv_nonempty, ecstatic_annotation)] := by
  refine ⟨rfl, rfl, by decide, rfl⟩

/-! ### Claim theorems about the Insights Service dashboard (`app.py`) -/

/-- A concrete enriched record builder for fixtures. -/
def sample_record (id dept sentiment : String) (themes : List String) :
    EnrichedRecord :=
  ⟨id, "Emp " ++ id, "Engineer", dept, "reason", "transcript text",
    sentiment, themes, [], "- summary"⟩

/-- The P3 corpus: two Negative, one Positive, one Neutral record. -/
def corpus_p3 : List EnrichedRecord :=
  [sample_record "E1" "Engineering" "Negative" ["Pay"],
   sample_record "E2" "Engineering" "Negative" ["Growth"],
   sample_record "E3" "Sales" "Positive" ["Pay"],
   sample_record "E4" "Sales" "Neutral" ["Management"]]

/-- C4: for every non-empty corpus the negative-sentiment rate equals
count(overallSentiment == Negative) / totalCount as a percentage, and on the
P3 corpus [Negative, Negative, Positive, Neutral] the rate is exactly 50
percent with totalCount 4.  (The value is exact here, so the source's
one-decimal `:.1f` display renders it as "50.0%".) -/
theorem c4_negative_sentiment_rate :
    (∀ df : List EnrichedRecord, df.length ≠ 0 →
      neg_sentiment_perc df =
        .ok ((neg_sentiment_count df : ℚ) / (df.length : ℚ) * 100)) ∧
    neg_sentiment_perc corpus_p3 = .ok 50 ∧
    corpus_p3.length = 4 ∧ neg_sentiment_count corpus_p3 = 2 := by
  refine ⟨fun df h => ?_, ?_, by decide, by decide⟩
  · simp [neg_sentiment_perc, pydiv, h, Except.map]
  · have h2 : neg_sentiment_count corpus_p3 = 2 := by decide
    have h4 : corpus_p3.length = 4 := by decide
    simp [neg_sentiment_perc, pydiv, h2, h4, Except.map]
    norm_num

/-- C4, witness: the universally quantified part applied to the concrete P3
corpus, its non-emptiness hypothesis discharged there. -/
theorem c4_negative_sentiment_rate_witness :
    neg_sentiment_perc corpus_p3 =
      .ok ((neg_sentiment_count corpus_p3 : ℚ) / (corpus_p3.length : ℚ) * 100) :=
  c4_negative_sentiment_rate.1 corpus_p3 (by decide)

/-- C5: on an empty corpus (totalCount = 0) the negative-sentiment-rate
computation fails instead of producing a number: the source's unguarded
`(neg_sentiment_count / len(df)) * 100` performs Python's `/` whose
zero-divisor case raises `ZeroDivisionError`, modelled as the error result
of `pydiv`.  (In the running app the failure on an empty corpus surfaces
even earlier, as a pandas `KeyError` on the missing sentiment column; either
way the operation fails and no rate is reported.) -/
theorem c5_empty_corpus_rate_errors :
    ∀ df : List EnrichedRecord, df.length = 0 →
      neg_sentiment_perc df = .error .zeroDivisionError := by
  intro df h
  simp [neg_sentiment_perc, pydiv, h, Except.map]

/-- C5, witness: the empty corpus triggers the error result. -/
theorem c5_empty_corpus_rate_errors_witness :
    neg_sentiment_perc [] = .error .zeroDivisionError :=
  c5_empty_corpus_rate_errors [] rfl

/-! ### Lemmas about `firstOccs`, the stable descending sort and `value_counts` -/

theorem mem_firstOccsAux (x : String) :
    ∀ (l : List String) (seen : List String),
      x ∈ firstOccsAux seen l ↔ (x ∈ l ∧ x ∉ seen) := by
  intro l
  induction l with
  | nil => intro seen; simp [firstOccsAux]
  | cons y ys ih =>
    intro seen
    by_cases hy : y ∈ seen
    · simp only [firstOccsAux, if_pos hy, ih]
      constructor
      · rintro ⟨hx, hns⟩; exact ⟨List.mem_cons_of_mem _ hx, hns⟩
      · rintro ⟨hx, hns⟩
        rcases List.mem_cons.mp hx with rfl | hx
        · exact absurd hy hns
        · exact ⟨hx, hns⟩
    · simp only [firstOccsAux, if_neg hy, List.mem_cons, ih]
      constructor
      · rintro (rfl | ⟨hx, hns⟩)
        · exact ⟨Or.inl rfl, hy⟩
        · exact ⟨Or.inr hx, fun hc => hns (Or.inr hc)⟩
      · rintro ⟨rfl | hx, hns⟩
        · exact Or.inl rfl
        · by_cases hxy : x = y
          · exact Or.inl hxy
          · exact Or.inr ⟨hx, fun hc => by
              rcases hc with h | h
              · exact hxy h
              · exact hns h⟩

theorem mem_firstOccs (x : String) (l : List String) :
    x ∈ firstOccs l ↔ x ∈ l := by
  simp [firstOccs, mem_firstOccsAux]

theorem mem_insertDesc (y x : String × Nat) :
    ∀ l : List (String × Nat), y ∈ insertDesc x l ↔ (y = x ∨ y ∈ l) := by
  intro l
  induction l with
  | nil => simp [insertDesc]
  | cons z zs ih =>
    simp only [insertDesc]
    by_cases h : x.2 < z.2
    · simp only [if_pos h, List.mem_cons, ih]
      tauto
    · simp only [if_neg h, List.mem_cons]

theorem mem_sortDesc (y : String × Nat) :
    ∀ l : List (String × Nat), y ∈ sortDesc l ↔ y ∈ l := by
  intro l
  induction l with
  | nil => simp [sortDesc]
  | cons z zs ih => simp [sortDesc, mem_insertDesc, ih]

theorem pairwise_insertDesc (x : String × Nat) :
    ∀ l : List (String × Nat),
      l.Pairwise (fun a b => b.2 ≤ a.2) →
      (insertDesc x l).Pairwise (fun a b => b.2 ≤ a.2) := by
  intro l
  induction l with
  | nil => intro _; simp [insertDesc]
  | cons y ys ih =>
    intro h
    rcases List.pairwise_cons.mp h with ⟨hy, hys⟩
    simp only [insertDesc]
    by_cases hlt : x.2 < y.2
    · rw [if_pos hlt]
      refine List.pairwise_cons.mpr ⟨?_, ih hys⟩
      intro b hb
      rcases (mem_insertDesc b x ys).mp hb with rfl | hb
      · exact Nat.le_of_lt hlt
      · exact hy b hb
    · rw [if_neg hlt]
      refine List.pairwise_cons.mpr ⟨?_, h⟩
      intro b hb
      rcases List.mem_cons.mp hb with rfl | hb
      · exact Nat.le_of_not_lt hlt
      · exact Nat.le_trans (hy b hb) (Nat.le_of_not_lt hlt)

theorem pairwise_sortDesc :
    ∀ l : List (String × Nat),
      (sortDesc l).Pairwise (fun a b => b.2 ≤ a.2) := by
  intro l
  induction l with
  | nil => simp [sortDesc]
  | cons x xs ih => exact pairwise_insertDesc x (sortDesc xs) ih

theorem le_head_of_mem_sortDesc {l : List (String × Nat)} {p : String × Nat}
    {rest : List (String × Nat)} (hs : sortDesc l = p :: rest)
    {q : String × Nat} (hq : q ∈ sortDesc l) : q.2 ≤ p.2 := by
  have hp := pairwise_sortDesc l
  rw [hs] at hp hq
  rcases List.mem_cons.mp hq with rfl | hq
  · exact Nat.le_refl _
  · exact (List.pairwise_cons.mp hp).1 q hq

theorem mem_value_counts (l : List String) (t : String) (c : Nat) :
    (t, c) ∈ value_counts l ↔ (t ∈ l ∧ c = l.count t) := by
  rw [value_counts, mem_sortDesc, List.mem_map]
  constructor
  · rintro ⟨v, hv, heq⟩
    rcases Prod.mk.injEq .. ▸ heq with ⟨rfl, rfl⟩
    exact ⟨(mem_firstOccs _ _).mp hv, rfl⟩
  · rintro ⟨ht, rfl⟩
    exact ⟨t, (mem_firstOccs _ _).mpr ht, rfl⟩

/-- The P4 corpus: keyThemes lists [["Pay","Growth"], ["Pay"], ["Management"]]. -/
def corpus_p4 : List EnrichedRecord :=
  [sample_record "E1" "Engineering" "Negative" ["Pay", "Growth"],
   sample_record "E2" "Engineering" "Negative" ["Pay"],
   sample_record "E3" "Engineering" "Negative" ["Management"]]

/-- C6: the `value_counts` table of the exploded keyThemes (`themes_df`)
pairs exactly the theme labels of the flattened multiset with their
occurrence counts; `top_theme` (its `idxmax`) is a label attaining the
maximal count; and on the P4 corpus with keyThemes
[["Pay","Growth"], ["Pay"], ["Management"]] the top theme is "Pay" with
count 2 and the table is {Pay: 2, Growth: 1, Management: 1}. -/
theorem c6_theme_frequency_and_top_theme :
    (∀ (df : List EnrichedRecord) (t : String) (c : Nat),
      (t, c) ∈ themes_df df ↔
        (t ∈ explode_keyThemes df ∧ c = (explode_keyThemes df).count t)) ∧
    (∀ (df : List EnrichedRecord) (t : String),
      top_theme df = some t →
        t ∈ explode_keyThemes df ∧
        ∀ s ∈ explode_keyThemes df,
          (explode_keyThemes df).count s ≤ (explode_keyThemes df).count t) ∧
    top_theme corpus_p4 = some "Pay" ∧
    (explode_keyThemes corpus_p4).count "Pay" = 2 ∧
    themes_df corpus_p4 = [("Pay", 2), ("Growth", 1), ("Management", 1)] := by
  refine ⟨fun df t c => mem_value_counts _ t c, fun df t h => ?_, by decide,
    by decide, by decide⟩
  rcases hv : value_counts (explode_keyThemes df) with _ | ⟨p, rest⟩
  · rw [top_theme, hv] at h; simp at h
  · rw [top_theme, hv] at h
    simp only [List.head?_cons, Option.map_some] at h
    have hpmem : (p.1, p.2) ∈ value_counts (explode_keyThemes df) := by
      rw [hv]; exact List.mem_cons_self _ _
    rcases (mem_value_counts _ p.1 p.2).mp hpmem with ⟨hp1, hp2⟩
    have ht : t = p.1 := by injection h with h'; exact h'.symm
    subst ht
    refine ⟨hp1, fun s hs => ?_⟩
    have hsmem : (s, (explode_keyThemes df).count s) ∈
        value_counts (explode_keyThemes df) :=
      (mem_value_counts _ s _).mpr ⟨hs, rfl⟩
    have hle := @le_head_of_mem_sortDesc _ p rest hv
      (s, (explode_keyThemes df).count s) hsmem
    exact hp2 ▸ hle

/-- C6, witness: the maximality statement applied to the concrete P4 corpus,
its `top_theme = some "Pay"` hypothesis discharged there. -/
theorem c6_theme_frequency_and_top_theme_witness :
    "Pay" ∈ explode_keyThemes corpus_p4 ∧
      ∀ s ∈ explode_keyThemes corpus_p4,
        (explode_keyThemes corpus_p4).count s ≤
          (explode_keyThemes corpus_p4).count "Pay" :=
  c6_theme_frequency_and_top_theme.2.1 corpus_p4 "Pay" (by decide)

/-- Looking a key up in an association list built by pairing each element of
a list with a function of itself yields that function's value, whenever the
key occurs in the list. -/
theorem lookup_map_pair {α : Type} (f : String → α) (d : String) :
    ∀ xs : List String, d ∈ xs →
      (xs.map (fun x => (x, f x))).lookup d = some (f d) := by
  intro xs
  induction xs with
  | nil => intro h; cases h
  | cons x rest ih =>
    intro h
    simp only [List.map_cons, List.lookup]
    cases hdx : (d == x) with
    | true =>
      have : d = x := eq_of_beq hdx
      subst this
      rfl
    | false =>
      have hne : d ≠ x := fun hc => by simp [hc] at hdx
      rcases List.mem_cons.mp h with rfl | h
      · exact absurd rfl hne
      · exact ih h

/-- The two department rows of the witness corpus: every sentiment present
anywhere in the corpus becomes a column for every department, so the
(Engineering, Positive) cell exists with count 0. -/
def corpus_two_depts : List EnrichedRecord :=
  [sample_record "E1" "Engineering" "Negative" ["Pay"],
   sample_record "E2" "Sales" "Positive" ["Growth"]]

/-- C7: `sentiment_by_dept` has a row for every department present in the
corpus and, within each row, a cell for every sentiment label present
anywhere in the corpus, holding the exact count of records with that
department and sentiment — including an explicit 0 (not an absent key) when
the combination never occurs, as `unstack().fillna(0)` produces. -/
theorem c7_sentiment_by_department_complete :
    ∀ (df : List EnrichedRecord) (d s : String),
      d ∈ df.map (fun r => r.department) →
      s ∈ df.map (fun r => r.analysis_overallSentiment) →
      ∃ m, (sentiment_by_dept df).lookup d = some m ∧
        m.lookup s = some ((df.filter (fun r =>
          r.department == d && r.analysis_overallSentiment == s)).length) := by
  intro df d s hd hs
  refine ⟨_, lookup_map_pair _ d _ ((mem_firstOccs d _).mpr hd), ?_⟩
  exact lookup_map_pair _ s _ ((mem_firstOccs s _).mpr hs)

/-- C7, witness: in the two-department corpus the (Engineering, Positive)
combination has zero occurrences, yet its cell is present with value 0. -/
theorem c7_sentiment_by_department_complete_witness :
    ∃ m, (sentiment_by_dept corpus_two_depts).lookup "Engineering" = some m ∧
      m.lookup "Positive" = some ((corpus_two_depts.filter (fun r =>
        r.department == "Engineering" &&
          r.analysis_overallSentiment == "Positive")).length) :=
  c7_sentiment_by_department_complete corpus_two_depts "Engineering" "Positive"
    (by decide) (by decide)

/-- The head of a filtered list is the first element satisfying the
predicate: `iloc[0]` on a boolean-mask selection behaves like `find?`. -/
theorem head_filter_eq_find {α : Type} (p : α → Bool) :
    ∀ l : List α, (l.filter p).head? = l.find? p := by
  intro l
  induction l with
  | nil => rfl
  | cons x xs ih =>
    cases hp : p x with
    | true => simp [List.filter_cons, List.find?_cons, hp]
    | false => simp [List.filter_cons, List.find?_cons, hp, ih]

/-- Two distinct records sharing one display name (same employee name and
identifier, different departments). -/
def dup_record_a : EnrichedRecord :=
  ⟨"E9", "Alice", "Engineer", "Engineering", "reason", "transcript",
    "Negative", ["Pay"], [], "- summary"⟩

/-- The second record with the same composite selector as `dup_record_a`. -/
def dup_record_b : EnrichedRecord :=
  ⟨"E9", "Alice", "Engineer", "Sales", "reason", "transcript",
    "Positive", ["Growth"], [], "- summary"⟩

/-- A corpus in which the composite selector "Alice (E9)" is ambiguous. -/
def dup_corpus : List EnrichedRecord := [dup_record_a, dup_record_b]

/-- C8, counterexample: with two records matching the selector "Alice (E9)",
the source's `df[df["display_name"] == sel].iloc[0]` returns the first
matching record as a success — it does not fail with `AmbiguousSelector`
(and no such error exists in the code), contradicting the claim that a
record is returned only when exactly one matches. -/
theorem c8_duplicate_selector_returns_first :
    (dup_corpus.filter (fun r => display_name r == "Alice (E9)")).length = 2 ∧
      dup_record_a ≠ dup_record_b ∧
      selected_interview dup_corpus "Alice (E9)" = some dup_record_a := by
  refine ⟨by decide, by decide, rfl⟩

/-- C8, amended: record lookup returns the first record (in corpus order)
whose display name equals the selector — `find?` semantics — so with zero
matches it fails (`iloc[0]` raises `IndexError`, modelled `none`), and with
multiple matches it silently returns the first; uniqueness of the composite
key is never validated. -/
theorem c8_lookup_first_match :
    ∀ (df : List EnrichedRecord) (sel : String),
      selected_interview df sel = df.find? (fun r => display_name r == sel) := by
  intro df sel
  exact head_filter_eq_find _ df

/-! ### Lemmas about the chat session -/

theorem chat_run_length (chat_complete : List Turn → Option String) :
    ∀ (inputs : List String) (messages : List Turn),
      (chat_run chat_complete messages inputs).1.length =
        messages.length + 2 * (chat_run chat_complete messages inputs).2.1 +
          (chat_run chat_complete messages inputs).2.2 := by
  intro inputs
  induction inputs with
  | nil => intro messages; simp [chat_run]
  | cons p rest ih =>
    intro messages
    cases hc : chat_complete (messages ++ [⟨Role.user, p⟩]) with
    | some r =>
      have h := ih (handle_chat_input chat_complete messages p)
      simp only [handle_chat_input, hc] at h
      simp only [chat_run, handle_chat_input, hc, Option.isSome_some, if_pos,
        List.length_append, List.length_cons, List.length_nil] at h ⊢
      omega
    | none =>
      have h := ih (handle_chat_input chat_complete messages p)
      simp only [handle_chat_input, hc] at h
      simp only [chat_run, handle_chat_input, hc, Option.isSome_none,
        Bool.false_eq_true, if_false, List.length_append, List.length_cons,
        List.length_nil, ite_false] at h ⊢
      omega

theorem chat_run_calls (chat_complete : List Turn → Option String) :
    ∀ (inputs : List String) (messages : List Turn),
      (chat_run chat_complete messages inputs).2.1 +
        (chat_run chat_complete messages inputs).2.2 = inputs.length := by
  intro inputs
  induction inputs with
  | nil => intro messages; simp [chat_run]
  | cons p rest ih =>
    intro messages
    cases hc : chat_complete (messages ++ [⟨Role.user, p⟩]) with
    | some r =>
      have h := ih (handle_chat_input chat_complete messages p)
      simp only [chat_run, hc, Option.isSome_some, if_pos, List.length_cons] at h ⊢
      omega
    | none =>
      have h := ih (handle_chat_input chat_complete messages p)
      simp only [chat_run, hc, Option.isSome_none, Bool.false_eq_true, if_false,
        List.length_cons, ite_false] at h ⊢
      omega

theorem chat_run_head (chat_complete : List Turn → Option String) :
    ∀ (inputs : List String) (m : Turn) (ms : List Turn),
      (chat_run chat_complete (m :: ms) inputs).1.head? = some m := by
  intro inputs
  induction inputs with
  | nil => intro m ms; simp [chat_run]
  | cons p rest ih =>
    intro m ms
    cases hc : chat_complete (m :: (ms ++ [⟨Role.user, p⟩])) with
    | some r =>
      simp only [chat_run, handle_chat_input, List.cons_append, hc,
        Option.isSome_some, if_pos]
      exact ih m _
    | none =>
      simp only [chat_run, handle_chat_input, List.cons_append, hc,
        Option.isSome_none, Bool.false_eq_true, if_false, ite_false]
      exact ih m _

/-! ### Claim theorems about the conversation state (`app.py`, tab 3) -/

/-- A completion-service oracle that always replies. -/
def always_ok_complete : List Turn → Option String := fun _ => some "Okay."

/-- C2, counterexample: the initial history already holds TWO turns (the
system context turn plus the canned assistant greeting of line 175), so
after one successful converse call the history has 4 turns, not
1 + 2·1 = 3 as the claim states. -/
theorem c2_initial_greeting_breaks_one_plus_2k :
    (chat_run always_ok_complete (init_messages []) ["hi"]).2.1 = 1 ∧
      (chat_run always_ok_complete (init_messages []) ["hi"]).1.length = 4 ∧
      (chat_run always_ok_complete (init_messages []) ["hi"]).1.length ≠
        1 + 2 * 1 := by
  refine ⟨rfl, rfl, by decide⟩

/-- C2, amended: the first turn of the conversation is a system turn (and
stays first across any sequence of converse calls), but the initial history
is the system turn PLUS a greeting assistant turn; hence after any sequence
of calls with s successes and f failures the history length is exactly
2 + 2·s + f — in particular 2 + 2k (not 1 + 2k) after the k-th successful
call when no call failed — and each single call appends exactly 2 turns on
success and exactly 1 (the user turn only) on failure. -/
theorem c2_conversation_append_only :
    ∀ (df : List EnrichedRecord) (chat_complete : List Turn → Option String)
      (inputs : List String),
      (init_messages df).head? = some ⟨Role.system, SYSTEM_PROMPT df⟩ ∧
      (chat_run chat_complete (init_messages df) inputs).1.head? =
        some ⟨Role.system, SYSTEM_PROMPT df⟩ ∧
      (chat_run chat_complete (init_messages df) inputs).1.length =
        2 + 2 * (chat_run chat_complete (init_messages df) inputs).2.1 +
          (chat_run chat_complete (init_messages df) inputs).2.2 ∧
      (chat_run chat_complete (init_messages df) inputs).2.1 +
        (chat_run chat_complete (init_messages df) inputs).2.2 = inputs.length ∧
      (∀ (messages : List Turn) (prompt : String),
        (handle_chat_input chat_complete messages prompt).length =
          messages.length +
            (if (chat_complete (messages ++ [⟨Role.user, prompt⟩])).isSome
             then 2 else 1)) := by
  intro df chat_complete inputs
  refine ⟨rfl, chat_run_head chat_complete inputs _ _, ?_, ?_, ?_⟩
  · have h := chat_run_length chat_complete inputs (init_messages df)
    simpa [init_messages] using h
  · exact chat_run_calls chat_complete inputs (init_messages df)
  · intro messages prompt
    cases hc : chat_complete (messages ++ [⟨Role.user, prompt⟩]) with
    | some r => simp [handle_chat_input, hc]
    | none => simp [handle_chat_input, hc]

/-! ### Claim theorem about the context prompt (`app.py`, lines 152-169) -/

/-- C9: `SYSTEM_PROMPT` is a deterministic pure function of the corpus —
identical corpus input yields byte-identical prompt text — and the prompt is
exactly the serialized corpus embedded between the two fixed instructional
template pieces.  (The embedding is faithful to the source here: the
f-string of lines 154-169 reads nothing but `data_as_json`, itself computed
from `df` alone.) -/
theorem c9_context_prompt_deterministic :
    (∀ df1 df2 : List EnrichedRecord, df1 = df2 →
      SYSTEM_PROMPT df1 = SYSTEM_PROMPT df2) ∧
    (∀ df : List EnrichedRecord,
      SYSTEM_PROMPT df =
        system_prompt_pre ++ data_as_json df ++ system_prompt_post) :=
  ⟨fun _ _ h => congrArg SYSTEM_PROMPT h, fun _ => rfl⟩

/-- C9, witness: two invocations on the identical concrete corpus yield
identical prompt text. -/
theorem c9_context_prompt_deterministic_witness :
    SYSTEM_PROMPT corpus_p3 = SYSTEM_PROMPT corpus_p3 :=
  c9_context_prompt_deterministic.1 corpus_p3 corpus_p3 rfl
